import Mathlib

/-!
Verification of the Creatora FastAPI post-generation pipeline.

Python strings are embedded as Lean `String`s; the Python string
operations used by the source (single-character `str.replace`,
`str.strip`, `str.lower`, slicing, the `in` substring test) are defined
below over `String.data` so that every definition is executable and
kernel-reducible.  External effects (the Gemini SDK call, HTTP requests,
the filesystem, the PIL image library, MD5) are passed in as explicit
environment values, so each function of the source becomes a pure Lean
function of its inputs and its environment.
-/

/-! ## Python string primitives -/

/-- Python `s.replace(a, b)` for single-character `a`, `b` (the only form
the source uses). -/
def pyReplace1 (s : String) (a b : Char) : String :=
  String.mk (s.data.map (fun c => if c = a then b else c))

/-- Python `str.strip()` on a character list: drop whitespace from both ends. -/
def pyStripL (l : List Char) : List Char :=
  ((l.dropWhile Char.isWhitespace).reverse.dropWhile Char.isWhitespace).reverse

/-- Python `s.strip()`. -/
def pyStrip (s : String) : String :=
  String.mk (pyStripL s.data)

/-- Python `s.lower()`. -/
def pyLower (s : String) : String :=
  String.mk (s.data.map Char.toLower)

/-- Python `s[:n]` (slicing by code points). -/
def pyTake (s : String) (n : Nat) : String :=
  String.mk (s.data.take n)

/-- `listIsPre needle l`: `needle` is an initial segment of `l`. -/
def listIsPre : List Char → List Char → Bool
  | [], _ => true
  | _ :: _, [] => false
  | a :: as, b :: bs => a == b && listIsPre as bs

/-- `listContainsSub needle l`: `needle` occurs contiguously in `l`. -/
def listContainsSub (needle : List Char) : List Char → Bool
  | [] => listIsPre needle []
  | c :: rest => listIsPre needle (c :: rest) || listContainsSub needle rest

/-- Python `needle in hay` on strings. -/
def strContainsSub (needle hay : String) : Bool :=
  listContainsSub needle.data hay.data

/-! ## schemas.py — request/response models -/

/-- `schemas.PastPost`. -/
structure PastPost where
  content : String
  platform : String
  tone : String
  hashtags : List String
  callToAction : Option String := none
deriving DecidableEq

/-- `schemas.BrandProfile`. -/
structure BrandProfile where
  tone : String
  niche : String
  audience : String
  styleSummary : String
  avgSentenceLength : Int
  vocabularyComplexity : String
  commonPhrases : List String
  topicPreferences : List String
  emotionalTone : String
  storytellingStyle : String
deriving DecidableEq

/-- `schemas.TextPost`. -/
structure TextPost where
  caption : String
  hashtags : List String
deriving DecidableEq

/-- `schemas.ImagePostLLM` (the strict LLM-facing model, no imageUrl). -/
structure ImagePostLLM where
  caption : String
  hashtags : List String
  imagePrompt : String
deriving DecidableEq

/-- `schemas.VideoPost`. -/
structure VideoPost where
  hook : String
  caption : String
  script : String
  shootingInstructions : String
  audienceEngagement : String
  hashtags : List String
deriving DecidableEq

/-- `schemas.GeneratePostResponseLLM`. -/
structure GeneratePostResponseLLM where
  text : TextPost
  image : ImagePostLLM
  video : VideoPost
deriving DecidableEq

/-- `schemas.ImagePost` (extends `ImagePostLLM` with an optional imageUrl,
defaulting to null). -/
structure ImagePost where
  caption : String
  hashtags : List String
  imagePrompt : String
  imageUrl : Option String := none
deriving DecidableEq

/-- `schemas.GeneratePostResponse`. -/
structure GeneratePostResponse where
  text : TextPost
  image : ImagePost
  video : VideoPost
deriving DecidableEq

/-! ## prompt_builder.py -/

/-- `prompt_builder.clean_str`: on falsy (empty) input return `""`; otherwise
replace newlines by spaces, double quotes by single quotes, and strip. -/
def clean_str (text : String) : String :=
  if text = "" then ""
  else pyStrip (pyReplace1 (pyReplace1 text '\n' ' ') '"' '\'')

/-- The cleaned, pre-truncated content of one past post as it appears in the
few-shot block: `clean_str(post.content[:150])`. -/
def past_post_content (post : PastPost) : String :=
  clean_str (pyTake post.content 150)

/-- One entry of the few-shot block built by the loop in
`prompt_builder.build_prompt` (`i` is the 1-based index from `enumerate`). -/
def past_post_entry (i : Nat) (post : PastPost) : String :=
  let post_tone := clean_str post.tone
  let cta := match post.callToAction with
    | some c => if c = "" then "None" else clean_str c
    | none => "None"
  toString i ++ ". Tone: " ++ post_tone ++ " | CTA: " ++ cta ++
    "\n   Content: " ++ past_post_content post ++ "...\n\n"

/-- The list of few-shot entries: the loop runs over `past_posts[:5]` with
`enumerate(…, 1)`. -/
def past_examples_list (past_posts : List PastPost) : List String :=
  (past_posts.take 5).mapIdx (fun i post => past_post_entry (i + 1) post)

/-- The accumulated `past_examples` string of `build_prompt`. -/
def past_examples (past_posts : List PastPost) : String :=
  String.join (past_examples_list past_posts)

/-- `prompt_builder.build_prompt`: the f-string template with the cleaned
brand fields and the few-shot block interpolated, then `.strip()`. -/
def build_prompt (brand : BrandProfile) (past_posts : List PastPost) : String :=
  let niche := clean_str brand.niche
  let audience := clean_str brand.audience
  let tone := clean_str brand.tone
  let style_summary := clean_str brand.styleSummary
  pyStrip
    ("You are a professional social media copywriter specializing in " ++ niche ++
     ".\n\nBRAND PROFILE:\n- Niche: " ++ niche ++
     "\n- Target Audience: " ++ audience ++
     "\n- Brand Tone: " ++ tone ++
     "\n- Style: " ++ style_summary ++
     "\n- Emotional Tone: " ++ clean_str brand.emotionalTone ++
     "\n- Common Phrases: " ++
       String.intercalate ", " ((brand.commonPhrases.take 5).map clean_str) ++
     "\n\nSUCCESSFUL PAST POSTS:\n" ++ past_examples past_posts ++
     "\n\nTASK:\nCreate 3 distinct Instagram content pieces. You must generate content for ALL three types:\n\n" ++
     "1. TEXT-ONLY POST: Engaging caption and hashtags.\n" ++
     "2. IMAGE POST: Visual-optimized caption and a detailed image generation prompt.\n" ++
     "3. VIDEO POST: A full Reel script including hook, shooting instructions, and engagement strategy.\n\n" ++
     "REQUIREMENTS:\n- Match the brand's tone (" ++ tone ++
     ")\n- Be educational yet promotional\n- Use single quotes (') instead of double quotes (\") for emphasis.\n- Do NOT include markdown formatting.\n")

/-- `prompt_builder.build_system_message`: an f-string with no interpolated
field, hence a constant. -/
def build_system_message (_brand : BrandProfile) : String :=
  "You are an expert social media creator. You strictly output JSON data matching the provided schema."

/-! ## json_fixer.py -/

/-- A parsed JSON document (numbers modelled as integers; the claims under
verification do not depend on float values). -/
inductive JsonValue where
  | null : JsonValue
  | bool : Bool → JsonValue
  | num : Int → JsonValue
  | str : String → JsonValue
  | arr : List JsonValue → JsonValue
  | obj : List (String × JsonValue) → JsonValue

/-- Python truthiness of a parsed JSON value (`if parsed:` in the source):
`None`, `False`, `0`, `""`, `[]` and an empty object are falsy. -/
def jsonTruthy : JsonValue → Bool
  | .null => false
  | .bool b => b
  | .num n => decide (n ≠ 0)
  | .str s => decide (s ≠ "")
  | .arr xs => !xs.isEmpty
  | .obj fs => !fs.isEmpty

/-- Whether a parsed JSON value is an object. -/
def JsonValue.isObj : JsonValue → Bool
  | .obj _ => true
  | _ => false

/-- `json_fixer.validate_and_fix_json`, with the two external parsers passed
in as their outcomes: `strict` is the result of `json.loads(raw_json)` and
`repaired` the result of `repair_json(raw_json, return_objects=True)`.
On strict success the value is returned unchanged; otherwise a truthy
repaired value is returned as-is, a falsy one raises
`ValueError("json_repair returned empty object")` which the enclosing
handler rewraps, and a repair exception is rewrapped the same way.
`raw_json` itself is only logged by the source, so it does not influence
the result. -/
def validate_and_fix_json (strict : Except String JsonValue)
    (repaired : Except String JsonValue) (_raw_json : String) :
    Except String JsonValue :=
  match strict with
  | .ok v => .ok v
  | .error _ =>
    match repaired with
    | .ok parsed =>
      if jsonTruthy parsed then .ok parsed
      else .error "Could not parse JSON even after repair: json_repair returned empty object"
    | .error e => .error ("Could not parse JSON even after repair: " ++ e)

/-! ## image_generator.py -/

/-- `image_generator.BASE_URL`: `os.getenv("BASE_URL", "http://localhost:8000")`,
modelled with its default value. -/
def BASE_URL : String := "http://localhost:8000"

/-- The fixed cue block `optimize_image_prompt` appends after the caption. -/
def image_prompt_suffix : String :=
  "\n\nStyle: Clean, bright, appetizing, Instagram-worthy\nLighting: Natural daylight, soft shadows\nComposition: Rule of thirds, shallow depth of field\nSetting: Modern, minimal, organic aesthetic\nQuality: High resolution, sharp focus, 4K\nMood: Fresh, healthy, inviting\nNo text, no watermarks."

/-- `image_prompt_suffix` without its final period (used to exhibit that the
template ends in a non-whitespace character). -/
def image_prompt_suffix_init : String :=
  "\n\nStyle: Clean, bright, appetizing, Instagram-worthy\nLighting: Natural daylight, soft shadows\nComposition: Rule of thirds, shallow depth of field\nSetting: Modern, minimal, organic aesthetic\nQuality: High resolution, sharp focus, 4K\nMood: Fresh, healthy, inviting\nNo text, no watermarks"

/-- `image_generator.optimize_image_prompt`: the f-string combining niche,
caption and the fixed cue block, then `.strip()`. -/
def optimize_image_prompt (caption : String) (niche : String) : String :=
  pyStrip ("Professional photography of " ++ niche ++ ": " ++ caption ++ image_prompt_suffix)

/-- The dict returned by the image-generation helpers. -/
structure ImageDict where
  imageUrl : Option String := none
  imageBase64 : Option String := none
  localPath : Option String := none
  error : Option String := none
deriving DecidableEq

/-- Environment of the placeholder strategy: whether
`generated_images/placeholder.png` already exists, whether the PIL synthesis
(import, draw, save) succeeds, and the base64 of the synthesized image. -/
structure PlaceholderEnv where
  fileExists : Bool
  pilOk : Bool
  pilBase64 : String
deriving DecidableEq

/-- `image_generator.create_placeholder_image`: synthesize the placeholder
with PIL and return its reference; when the import, drawing or save fails
the exception propagates (the source only guards the font lookup). -/
def create_placeholder_image (penv : PlaceholderEnv) : Except String ImageDict :=
  if penv.pilOk then
    .ok { imageUrl := some "/images/placeholder.png",
          imageBase64 := some penv.pilBase64,
          localPath := some "generated_images/placeholder.png" }
  else .error "placeholder image synthesis failed"

/-- `image_generator.create_placeholder_response`: reuse the placeholder file
when it exists, otherwise synthesize it with `create_placeholder_image`. -/
def create_placeholder_response (penv : PlaceholderEnv) : Except String ImageDict :=
  if !penv.fileExists then create_placeholder_image penv
  else .ok { imageUrl := some "/images/placeholder.png",
             error := some "Image generation not configured" }

/-- Outcome of the one `requests.post` call to the Stability endpoint: a
response (status, content-type header, body as base64), a timeout, or
another exception. The source never reads the content-type. -/
inductive HttpOutcome where
  | response (status : Nat) (contentType : String) (bodyBase64 : String)
  | timeout
  | exception (msg : String)
deriving DecidableEq

/-- Environment of `generate_image_with_stability`: the `STABILITY_API_KEY`
value and the outcome of the provider call. -/
structure StabilityEnv where
  api_key : Option String
  outcome : HttpOutcome
deriving DecidableEq

/-- The dict returned by `generate_image_with_stability` on its success path:
the saved file is named by the first 10 hex digits of the prompt's MD5. -/
def stability_success_dict (md5hex : String → String)
    (prompt base_url bodyBase64 : String) : ImageDict :=
  { imageUrl := some (base_url ++ "/images/image_" ++ pyTake (md5hex prompt) 10 ++ ".png"),
    imageBase64 := some bodyBase64,
    localPath := some ("generated_images/image_" ++ pyTake (md5hex prompt) 10 ++ ".png") }

/-- `image_generator.generate_image_with_stability`, with the MD5 hex digest
function passed in as `md5hex`. Success is decided by `status_code == 200`
alone; every failure (missing key, non-200 status, timeout, exception)
falls back to `create_placeholder_response`. -/
def generate_image_with_stability (md5hex : String → String)
    (senv : StabilityEnv) (penv : PlaceholderEnv)
    (prompt : String) (base_url : String) : Except String ImageDict :=
  match senv.api_key with
  | none => create_placeholder_response penv
  | some _ =>
    match senv.outcome with
    | .response status _ bodyBase64 =>
      if status = 200 then .ok (stability_success_dict md5hex prompt base_url bodyBase64)
      else create_placeholder_response penv
    | .timeout => create_placeholder_response penv
    | .exception _ => create_placeholder_response penv

/-- Environment of one run of the image-provider chain. -/
structure ImageEnv where
  stability : StabilityEnv
  penv : PlaceholderEnv
deriving DecidableEq

/-- `image_generator.generate_image_with_imagen`: try Stability when its key
is configured, accept its result only when the returned url is truthy and
does not mention "placeholder", otherwise terminate in
`create_placeholder_response`. -/
def generate_image_with_imagen (md5hex : String → String) (ienv : ImageEnv)
    (prompt : String) : Except String ImageDict :=
  match ienv.stability.api_key with
  | some _ =>
    match generate_image_with_stability md5hex ienv.stability ienv.penv prompt BASE_URL with
    | .error e => .error e
    | .ok result =>
      match result.imageUrl with
      | some url =>
        if url ≠ "" && !strContainsSub "placeholder" (pyLower url) then .ok result
        else create_placeholder_response ienv.penv
      | none => create_placeholder_response ienv.penv
  | none => create_placeholder_response ienv.penv

/-! ## llm_service.py -/

/-- The response rebuilt by `call_gemini` from the validated LLM output: the
same text and video, the image fields copied with `imageUrl = None`. -/
def gemini_to_response (llm_output : GeneratePostResponseLLM) : GeneratePostResponse :=
  { text := llm_output.text,
    video := llm_output.video,
    image := { caption := llm_output.image.caption,
               hashtags := llm_output.image.hashtags,
               imagePrompt := llm_output.image.imagePrompt,
               imageUrl := none } }

/-- `llm_service.call_gemini`, with everything up to the validated
`GeneratePostResponseLLM` — the SDK call, `validate_and_fix_json`, the
pydantic construction — abstracted as its outcome `gemini`. -/
def call_gemini (gemini : Except String GeneratePostResponseLLM) :
    Except String GeneratePostResponse :=
  match gemini with
  | .ok llm_output => .ok (gemini_to_response llm_output)
  | .error e => .error e

/-- `llm_service.call_llm`: try `call_gemini`; on any exception print it and
fall off the end of the function, i.e. return `None`. No classification and
no re-raise happens here. -/
def call_llm (gemini : Except String GeneratePostResponseLLM) :
    Option GeneratePostResponse :=
  match call_gemini gemini with
  | .ok r => some r
  | .error _ => none

/-- `llm_service.generate_post_with_image`: generate the text content, then
optimize the image prompt and run the image chain. A falsy LLM result
raises `ValueError("Invalid response structure from LLM")`; an image-chain
exception is printed and re-raised; on success `image.imageUrl` is set from
the chain's dict, with the static placehold.co url as the `.get` default. -/
def generate_post_with_image (md5hex : String → String)
    (gemini : Except String GeneratePostResponseLLM) (ienv : ImageEnv)
    (brand_niche : String) : Except String GeneratePostResponse :=
  match call_llm gemini with
  | none => .error "Invalid response structure from LLM"
  | some response_data =>
    let image_prompt := response_data.image.imagePrompt
    let enhanced_prompt := optimize_image_prompt image_prompt brand_niche
    match generate_image_with_imagen md5hex ienv enhanced_prompt with
    | .error e => .error e
    | .ok image_result =>
      .ok { response_data with
            image := { response_data.image with
                       imageUrl := some (image_result.imageUrl.getD "https://placehold.co/1080x1080/png?text=Image") } }

/-- The environment of one retry attempt: the outcome of the Gemini step and
of the image chain for that attempt. -/
structure AttemptEnv where
  gemini : Except String GeneratePostResponseLLM
  image : ImageEnv

/-- Result of `call_llm_with_retry`: the returned response or the final
`RuntimeError` carrying the last error, together with how many times
`generate_post_with_image` was invoked. -/
inductive RetryResult where
  | success (r : GeneratePostResponse) (calls : Nat)
  | exhausted (last_error : Option String) (calls : Nat)
deriving DecidableEq

/-- The retry loop of `llm_service.call_llm_with_retry`: `attempt` is the
loop index, `remaining` the attempts left, `calls` counts invocations of
the attempt function. -/
def retryAux (f : Nat → Except String GeneratePostResponse) :
    Nat → Nat → Option String → Nat → RetryResult
  | _, 0, last_error, calls => .exhausted last_error calls
  | attempt, remaining + 1, _last_error, calls =>
    match f attempt with
    | .ok r => .success r (calls + 1)
    | .error e => retryAux f (attempt + 1) remaining (some e) (calls + 1)

/-- `llm_service.call_llm_with_retry`: up to `max_retries` full attempts of
`generate_post_with_image`, attempt `i` running in environment `envs i`;
after the loop a `RuntimeError` carrying the last error is raised. The
system message and prompt are consumed by the abstracted Gemini call. -/
def call_llm_with_retry (md5hex : String → String)
    (_system_message _prompt : String) (envs : Nat → AttemptEnv)
    (brand_niche : String) (max_retries : Nat) : RetryResult :=
  retryAux
    (fun i => generate_post_with_image md5hex (envs i).gemini (envs i).image brand_niche)
    0 max_retries none 0

/-- The quota test of `call_llm_with_retry`: `"429" in m or "quota" in m or
"rate limit" in m` on the lowercased stringified exception. -/
def is_rate_limit_error (error_msg : String) : Bool :=
  let m := pyLower error_msg
  strContainsSub "429" m || strContainsSub "quota" m || strContainsSub "rate limit" m

/-- The sleep performed after a failed attempt, from the two backoff branches
of `call_llm_with_retry`: `2 ** attempt` seconds for a rate-limit error and
2 seconds otherwise, in both cases only while another attempt remains
(`attempt < max_retries - 1`); `none` means no sleep before giving up. -/
def backoff_wait (error_msg : String) (attempt max_retries : Nat) : Option Nat :=
  if is_rate_limit_error error_msg then
    if attempt < max_retries - 1 then some (2 ^ attempt) else none
  else if attempt < max_retries - 1 then some 2 else none

/-! ## Failure-shape predicates and concrete environments -/

/-- The Stability attempt fails as the code detects failure: no API key
configured, a non-200 status, a timeout, or an exception. -/
def stability_attempt_fails (senv : StabilityEnv) : Prop :=
  senv.api_key = none ∨
    match senv.outcome with
    | .response status _ _ => status ≠ 200
    | .timeout => True
    | .exception _ => True

/-- The placeholder strategy's environment lets it succeed: the placeholder
file already exists, or PIL synthesis works. -/
def placeholder_ok (penv : PlaceholderEnv) : Prop :=
  penv.fileExists = true ∨ penv.pilOk = true

/-- A fixed stand-in for the MD5 hex digest, used in concrete evaluations. -/
def w_md5 : String → String := fun _ => "0123456789abcdef"

/-- A concrete validated LLM output used in concrete evaluations. -/
def w_llm : GeneratePostResponseLLM :=
  { text := { caption := "cap", hashtags := ["#a"] },
    image := { caption := "icap", hashtags := ["#b"], imagePrompt := "a sunset over hills" },
    video := { hook := "h", caption := "c", script := "s", shootingInstructions := "si",
               audienceEngagement := "ae", hashtags := ["#v"] } }

/-- A placeholder environment whose file exists (PIL itself broken). -/
def x_penv : PlaceholderEnv := { fileExists := true, pilOk := false, pilBase64 := "" }

/-- A placeholder environment where the file is absent and PIL fails. -/
def x_penv_broken : PlaceholderEnv := { fileExists := false, pilOk := false, pilBase64 := "" }

/-- An image environment whose provider call timed out and whose key is unset. -/
def w_ienv : ImageEnv := { stability := { api_key := none, outcome := .timeout }, penv := x_penv }

/-- An image environment whose provider answered 200 with an HTML body. -/
def x_ienv_html : ImageEnv :=
  { stability := { api_key := some "sk-key", outcome := .response 200 "text/html" "PGh0bWw+" },
    penv := x_penv }

/-- An image environment whose provider answered 500. -/
def x_ienv_fail : ImageEnv :=
  { stability := { api_key := some "sk-key", outcome := .response 500 "application/json" "" },
    penv := x_penv }

/-- An attempt whose Gemini step raised a quota error. -/
def w_env_fail : AttemptEnv := { gemini := .error "429 quota", image := w_ienv }

/-- An attempt whose Gemini step succeeded, image chain failing over to the
placeholder. -/
def w_env_ok : AttemptEnv := { gemini := .ok w_llm, image := w_ienv }

/-- An attempt whose Gemini step succeeded and whose image provider answered
200 with HTML content. -/
def x_env_html : AttemptEnv := { gemini := .ok w_llm, image := x_ienv_html }

/-- An attempt whose Gemini step succeeded and whose image provider answered
500. -/
def x_env_img_fail : AttemptEnv := { gemini := .ok w_llm, image := x_ienv_fail }

/-- A past post with an overlong, newline-carrying content, for concrete
evaluations of the few-shot block. -/
def w_post : PastPost :=
  { content := String.mk (List.replicate 200 'x') ++ "\nmore",
    platform := "instagram", tone := "witty", hashtags := ["#x"],
    callToAction := some "visit us" }

/-- Seven copies of `w_post` with distinct tones, to exercise the 5-entry cap. -/
def w_posts : List PastPost :=
  [{ w_post with tone := "t1" }, { w_post with tone := "t2" }, { w_post with tone := "t3" },
   { w_post with tone := "t4" }, { w_post with tone := "t5" }, { w_post with tone := "t6" },
   { w_post with tone := "t7" }]

/-- A caption longer than 200 characters containing a newline. -/
def x_long_caption : String := String.mk (List.replicate 201 'a') ++ "\nsecond line"

/-! ## Helper lemmas -/

theorem str_data_append (a b : String) : (a ++ b).data = a.data ++ b.data := rfl

theorem dropWhile_eq_self_of_head {α : Type} (p : α → Bool) (l : List α)
    (h : ∀ c ∈ l.head?, p c = false) : l.dropWhile p = l := by
  cases l with
  | nil => rfl
  | cons a t => simp [List.dropWhile_cons, h a (by simp)]

theorem pyStripL_eq_self (l : List Char)
    (h1 : ∀ c ∈ l.head?, c.isWhitespace = false)
    (h2 : ∀ c ∈ l.getLast?, c.isWhitespace = false) :
    pyStripL l = l := by
  unfold pyStripL
  rw [dropWhile_eq_self_of_head _ _ h1]
  rw [dropWhile_eq_self_of_head _ _ (by simpa [List.head?_reverse] using h2)]
  simp

theorem pyStripL_length_le (l : List Char) : (pyStripL l).length ≤ l.length := by
  unfold pyStripL
  calc ((l.dropWhile Char.isWhitespace).reverse.dropWhile Char.isWhitespace).reverse.length
      = ((l.dropWhile Char.isWhitespace).reverse.dropWhile Char.isWhitespace).length := by
        simp
    _ ≤ (l.dropWhile Char.isWhitespace).reverse.length :=
        (List.dropWhile_sublist _).length_le
    _ = (l.dropWhile Char.isWhitespace).length := by simp
    _ ≤ l.length := (List.dropWhile_sublist _).length_le

theorem mem_of_mem_pyStripL (c : Char) (l : List Char) (h : c ∈ pyStripL l) : c ∈ l := by
  unfold pyStripL at h
  rw [List.mem_reverse] at h
  have h2 := List.dropWhile_subset _ h
  rw [List.mem_reverse] at h2
  exact List.dropWhile_subset _ h2

theorem pyReplace1_length (t : String) (a b : Char) :
    (pyReplace1 t a b).length = t.length := by
  show (t.data.map _).length = t.data.length
  exact List.length_map _ _

theorem clean_str_length_le (s : String) : (clean_str s).length ≤ s.length := by
  unfold clean_str
  split
  next h => subst h; exact Nat.le_refl _
  next h =>
    have h1 : (pyStrip (pyReplace1 (pyReplace1 s '\n' ' ') '"' '\'')).length
        ≤ (pyReplace1 (pyReplace1 s '\n' ' ') '"' '\'').length :=
      pyStripL_length_le _
    rw [pyReplace1_length, pyReplace1_length] at h1
    exact h1

theorem pyReplace1_not_mem_src (t : String) (a b : Char) (hab : b ≠ a) :
    a ∉ (pyReplace1 t a b).data := by
  intro h
  rw [show (pyReplace1 t a b).data = t.data.map (fun c => if c = a then b else c) from rfl,
    List.mem_map] at h
  obtain ⟨c, _, hc⟩ := h
  by_cases hca : c = a
  · rw [if_pos hca] at hc; exact hab hc
  · rw [if_neg hca] at hc; exact hca hc

theorem pyReplace1_preserves_not_mem (t : String) (a b x : Char)
    (hx : x ∉ t.data) (hbx : b ≠ x) : x ∉ (pyReplace1 t a b).data := by
  intro h
  rw [show (pyReplace1 t a b).data = t.data.map (fun c => if c = a then b else c) from rfl,
    List.mem_map] at h
  obtain ⟨c, hct, hc⟩ := h
  by_cases hca : c = a
  · rw [if_pos hca] at hc; exact hbx hc
  · rw [if_neg hca] at hc; subst hc; exact hx hct

theorem clean_str_no_newline (s : String) : '\n' ∉ (clean_str s).data := by
  unfold clean_str
  split
  next h => decide
  next h =>
    intro hmem
    have h0 : '\n' ∈ (pyReplace1 (pyReplace1 s '\n' ' ') '"' '\'').data :=
      mem_of_mem_pyStripL _ _ hmem
    exact pyReplace1_preserves_not_mem _ _ _ _
      (pyReplace1_not_mem_src s '\n' ' ' (by decide)) (by decide) h0

theorem past_post_content_length_le (post : PastPost) :
    (past_post_content post).length ≤ 150 := by
  unfold past_post_content
  calc (clean_str (pyTake post.content 150)).length
      ≤ (pyTake post.content 150).length := clean_str_length_le _
    _ = (post.content.data.take 150).length := rfl
    _ ≤ 150 := List.length_take_le _ _

theorem placeholder_resp_ok (penv : PlaceholderEnv) (h : placeholder_ok penv) :
    ∃ d, create_placeholder_response penv = .ok d ∧
      d.imageUrl = some "/images/placeholder.png" := by
  obtain ⟨fe, pil, b64⟩ := penv
  cases fe with
  | true =>
    refine ⟨{ imageUrl := some "/images/placeholder.png", imageBase64 := none,
              localPath := none, error := some "Image generation not configured" }, ?_, rfl⟩
    simp [create_placeholder_response]
  | false =>
    cases pil with
    | true =>
      refine ⟨{ imageUrl := some "/images/placeholder.png", imageBase64 := some b64,
                localPath := some "generated_images/placeholder.png", error := none }, ?_, rfl⟩
      simp [create_placeholder_response, create_placeholder_image]
    | false => exact absurd h (by simp [placeholder_ok])

theorem stability_fails_eq (md5hex : String → String) (senv : StabilityEnv)
    (penv : PlaceholderEnv) (prompt base_url : String) (k : String)
    (hk : senv.api_key = some k) (hs : stability_attempt_fails senv) :
    generate_image_with_stability md5hex senv penv prompt base_url =
      create_placeholder_response penv := by
  obtain ⟨key, outcome⟩ := senv
  cases hk
  rcases hs with h | h
  · exact absurd h (by simp)
  · cases outcome with
    | response status ct body =>
      have : status ≠ 200 := h
      simp [generate_image_with_stability, this]
    | timeout => rfl
    | exception e => rfl

theorem image_chain_placeholder (md5hex : String → String) (ienv : ImageEnv)
    (prompt : String) (hs : stability_attempt_fails ienv.stability)
    (hp : placeholder_ok ienv.penv) :
    ∃ d, generate_image_with_imagen md5hex ienv prompt = .ok d ∧
      d.imageUrl = some "/images/placeholder.png" := by
  obtain ⟨⟨key, outcome⟩, penv⟩ := ienv
  obtain ⟨d, hd, hurl⟩ := placeholder_resp_ok penv hp
  cases key with
  | none =>
    exact ⟨d, by simpa [generate_image_with_imagen] using hd, hurl⟩
  | some k =>
    have hst := stability_fails_eq md5hex ⟨some k, outcome⟩ penv prompt BASE_URL k rfl hs
    refine ⟨d, ?_, hurl⟩
    have hfilter : strContainsSub "placeholder" (pyLower "/images/placeholder.png") = true := by
      decide
    simp [generate_image_with_imagen, hst, hd, hurl, hfilter]

theorem image_chain_ok_of_placeholder (md5hex : String → String) (ienv : ImageEnv)
    (prompt : String) (hp : placeholder_ok ienv.penv) :
    ∃ d, generate_image_with_imagen md5hex ienv prompt = .ok d := by
  obtain ⟨⟨key, outcome⟩, penv⟩ := ienv
  obtain ⟨d, hd, hurl⟩ := placeholder_resp_ok penv hp
  cases key with
  | none => exact ⟨d, by simpa [generate_image_with_imagen] using hd⟩
  | some k =>
    cases outcome with
    | response status ct body =>
      by_cases h200 : status = 200
      · subst h200
        by_cases hfil : (BASE_URL ++ "/images/image_" ++ pyTake (md5hex prompt) 10 ++ ".png") ≠ "" ∧
            strContainsSub "placeholder"
              (pyLower (BASE_URL ++ "/images/image_" ++ pyTake (md5hex prompt) 10 ++ ".png")) = false
        · exact ⟨stability_success_dict md5hex prompt BASE_URL body, by
            simp [generate_image_with_imagen, generate_image_with_stability,
              stability_success_dict, hfil.1, hfil.2]⟩
        · refine ⟨d, ?_⟩
          rw [Decidable.not_and_iff_or_not] at hfil
          rcases hfil with hfil | hfil
          · simp only [ne_eq, Decidable.not_not] at hfil
            simp [generate_image_with_imagen, generate_image_with_stability,
              stability_success_dict, hfil, hd]
          · simp only [Bool.not_eq_false] at hfil
            simp [generate_image_with_imagen, generate_image_with_stability,
              stability_success_dict, hfil, hd]
      · have hst := stability_fails_eq md5hex ⟨some k, .response status ct body⟩ penv prompt
          BASE_URL k rfl (Or.inr h200)
        refine ⟨d, ?_⟩
        simp [generate_image_with_imagen, hst, hd, hurl,
          show strContainsSub "placeholder" (pyLower "/images/placeholder.png") = true by decide]
    | timeout =>
      have hst := stability_fails_eq md5hex ⟨some k, .timeout⟩ penv prompt BASE_URL k rfl
        (Or.inr trivial)
      refine ⟨d, ?_⟩
      simp [generate_image_with_imagen, hst, hd, hurl,
        show strContainsSub "placeholder" (pyLower "/images/placeholder.png") = true by decide]
    | exception e =>
      have hst := stability_fails_eq md5hex ⟨some k, .exception e⟩ penv prompt BASE_URL k rfl
        (Or.inr trivial)
      refine ⟨d, ?_⟩
      simp [generate_image_with_imagen, hst, hd, hurl,
        show strContainsSub "placeholder" (pyLower "/images/placeholder.png") = true by decide]

theorem attempt_error_of_gemini (md5hex : String → String) (e : String)
    (ienv : ImageEnv) (brand_niche : String) :
    generate_post_with_image md5hex (.error e) ienv brand_niche =
      .error "Invalid response structure from LLM" := rfl

theorem pyStripL_cons_concat (a b : Char) (mid : List Char)
    (ha : a.isWhitespace = false) (hb : b.isWhitespace = false) :
    pyStripL (a :: (mid ++ [b])) = a :: (mid ++ [b]) := by
  unfold pyStripL
  rw [List.dropWhile_cons_of_neg (by simp [ha])]
  have h1 : (a :: (mid ++ [b])).reverse = b :: (mid.reverse ++ [a]) := by simp
  rw [h1, List.dropWhile_cons_of_neg (by simp [hb]), ← h1, List.reverse_reverse]

theorem retryAux_success (f : Nat → Except String GeneratePostResponse) (k : Nat) :
    ∀ (a rem : Nat) (le : Option String) (c : Nat), k < rem →
    (∀ i, i < k → ∃ e, f (a + i) = .error e) →
    ∀ r, f (a + k) = .ok r →
    retryAux f a rem le c = .success r (c + k + 1) := by
  induction k with
  | zero =>
    intro a rem le c hlt hf r hr
    obtain ⟨m, rfl⟩ : ∃ m, rem = m + 1 := ⟨rem - 1, by omega⟩
    have hr2 : f a = .ok r := by simpa using hr
    simp [retryAux, hr2]
  | succ k ih =>
    intro a rem le c hlt hf r hr
    obtain ⟨m, rfl⟩ : ∃ m, rem = m + 1 := ⟨rem - 1, by omega⟩
    obtain ⟨e, he⟩ := hf 0 (by omega)
    have he2 : f a = .error e := by simpa using he
    have hstep : retryAux f a (m + 1) le c = retryAux f (a + 1) m (some e) (c + 1) := by
      simp [retryAux, he2]
    rw [hstep]
    have h2 := ih (a + 1) m (some e) (c + 1) (by omega)
      (fun i hi => by
        obtain ⟨e2, he2i⟩ := hf (i + 1) (by omega)
        exact ⟨e2, by rw [show a + 1 + i = a + (i + 1) by omega]; exact he2i⟩)
      r (by rw [show a + 1 + k = a + (k + 1) by omega]; exact hr)
    rw [h2]
    congr 1
    omega

theorem retryAux_exhausted_of_all_fail (f : Nat → Except String GeneratePostResponse)
    (msg : String) (hf : ∀ i, f i = .error msg) :
    ∀ (rem a : Nat) (le : Option String) (c : Nat), 0 < rem →
    retryAux f a rem le c = .exhausted (some msg) (c + rem) := by
  intro rem
  induction rem with
  | zero => intro a le c h; omega
  | succ m ih =>
    intro a le c _
    cases m with
    | zero => simp [retryAux, hf a]
    | succ m2 =>
      have hnext := ih (a + 1) (some msg) (c + 1) (by omega)
      rw [show retryAux f a (m2 + 1 + 1) le c
          = retryAux f (a + 1) (m2 + 1) (some msg) (c + 1) by simp [retryAux, hf a]]
      rw [hnext]
      congr 1
      omega

/-! ## Claims -/

/-- Claim C1, counterexample to the claim as stated: at attempt index 0
(below max_retries - 1 = 1) a quota-classified failure waits 2 ** 0 = 1
second, which is shorter than the 2-second wait of every other retryable
failure — the quota wait is neither a fixed interval nor always at least
the non-quota wait. -/
theorem claim_C1_counterexample :
    is_rate_limit_error "429 quota exceeded" = true ∧
    backoff_wait "429 quota exceeded" 0 2 = some 1 ∧
    backoff_wait "connection reset by peer" 0 2 = some 2 ∧
    1 < 2 :=
  ⟨by decide, by decide, by decide, by decide⟩

/-- Claim C1 (amended): while another attempt remains, a failure matching the
429/quota/rate-limit test waits `2 ** attempt` seconds (exponential, not a
fixed interval) and any other failure waits a fixed 2 seconds; the quota
wait reaches the non-quota wait exactly from attempt index 1 on. -/
theorem claim_C1 (error_msg : String) (attempt max_retries : Nat)
    (h : attempt < max_retries - 1) :
    (is_rate_limit_error error_msg = true →
      backoff_wait error_msg attempt max_retries = some (2 ^ attempt)) ∧
    (is_rate_limit_error error_msg = false →
      backoff_wait error_msg attempt max_retries = some 2) ∧
    (2 ≤ 2 ^ attempt ↔ 1 ≤ attempt) := by
  refine ⟨fun hq => by simp [backoff_wait, hq, h],
          fun hq => by simp [backoff_wait, hq, h], ?_, ?_⟩
  · intro h2
    cases attempt with
    | zero => norm_num at h2
    | succ n => omega
  · intro h1
    calc (2 : Nat) = 2 ^ 1 := by norm_num
      _ ≤ 2 ^ attempt := Nat.pow_le_pow_right (by norm_num) h1

/-- Witness for claim C1 at attempt index 1 with three configured retries. -/
theorem claim_C1_witness :
    backoff_wait "429 Too Many Requests" 1 3 = some 2 ∧
    backoff_wait "boom" 1 3 = some 2 :=
  ⟨by simpa using (claim_C1 "429 Too Many Requests" 1 3 (by decide)).1 (by decide),
   (claim_C1 "boom" 1 3 (by decide)).2.1 (by decide)⟩

/-- Claim C2 (confirmed): with max_retries = 2 and a text provider failing on
every invocation, the end-to-end generation is invoked exactly 2 times and a
RuntimeError carrying the last underlying attempt error is raised; and when
the provider fails on the first N-1 attempts and succeeds on attempt
N ≤ max_retries (the placeholder keeping the image step non-failing), the
orchestrator returns success after exactly N invocations. -/
theorem claim_C2 (md5hex : String → String)
    (system_message prompt brand_niche : String) (envs : Nat → AttemptEnv) :
    ((∀ i, ∃ e, (envs i).gemini = .error e) →
      call_llm_with_retry md5hex system_message prompt envs brand_niche 2 =
        .exhausted (some "Invalid response structure from LLM") 2) ∧
    (∀ N max_retries llm, 1 ≤ N → N ≤ max_retries →
      (∀ i, i + 1 < N → ∃ e, (envs i).gemini = .error e) →
      (envs (N - 1)).gemini = .ok llm →
      placeholder_ok (envs (N - 1)).image.penv →
      ∃ r, call_llm_with_retry md5hex system_message prompt envs brand_niche max_retries =
        .success r N) := by
  constructor
  · intro hall
    have hf : ∀ i, generate_post_with_image md5hex (envs i).gemini (envs i).image brand_niche
        = .error "Invalid response structure from LLM" := by
      intro i
      obtain ⟨e, he⟩ := hall i
      rw [he]
      exact attempt_error_of_gemini md5hex e (envs i).image brand_niche
    have h2 := retryAux_exhausted_of_all_fail
      (fun i => generate_post_with_image md5hex (envs i).gemini (envs i).image brand_niche)
      "Invalid response structure from LLM" hf 2 0 none 0 (by omega)
    simpa [call_llm_with_retry] using h2
  · intro N max_retries llm hN hNm hfail hok hp
    obtain ⟨d, hd⟩ := image_chain_ok_of_placeholder md5hex (envs (N - 1)).image
      (optimize_image_prompt llm.image.imagePrompt brand_niche) hp
    have hattempt : generate_post_with_image md5hex (envs (N - 1)).gemini
        (envs (N - 1)).image brand_niche
        = .ok { text := llm.text,
                image := { caption := llm.image.caption, hashtags := llm.image.hashtags,
                           imagePrompt := llm.image.imagePrompt,
                           imageUrl := some (d.imageUrl.getD "https://placehold.co/1080x1080/png?text=Image") },
                video := llm.video } := by
      rw [hok]
      simp [generate_post_with_image, call_llm, call_gemini, gemini_to_response, hd]
    refine ⟨{ text := llm.text,
              image := { caption := llm.image.caption, hashtags := llm.image.hashtags,
                         imagePrompt := llm.image.imagePrompt,
                         imageUrl := some (d.imageUrl.getD "https://placehold.co/1080x1080/png?text=Image") },
              video := llm.video }, ?_⟩
    have h3 := retryAux_success
      (fun i => generate_post_with_image md5hex (envs i).gemini (envs i).image brand_niche)
      (N - 1) 0 max_retries none 0 (by omega)
      (fun i hi => by
        obtain ⟨e, he⟩ := hfail i (by omega)
        refine ⟨"Invalid response structure from LLM", ?_⟩
        show generate_post_with_image md5hex (envs (0 + i)).gemini (envs (0 + i)).image
          brand_niche = _
        rw [show 0 + i = i by omega, he]
        exact attempt_error_of_gemini md5hex e (envs i).image brand_niche)
      _ (by
        show generate_post_with_image md5hex (envs (0 + (N - 1))).gemini
          (envs (0 + (N - 1))).image brand_niche = _
        rw [show 0 + (N - 1) = N - 1 by omega]
        exact hattempt)
    rw [show N = 0 + (N - 1) + 1 by omega]
    simpa [call_llm_with_retry] using h3

/-- Witness for claim C2: an always-failing provider under max_retries = 2,
and a provider succeeding at once (N = 1). -/
theorem claim_C2_witness :
    call_llm_with_retry w_md5 "sys" "pr" (fun _ => w_env_fail) "food" 2 =
      .exhausted (some "Invalid response structure from LLM") 2 ∧
    ∃ r, call_llm_with_retry w_md5 "sys" "pr" (fun _ => w_env_ok) "food" 2 =
      .success r 1 :=
  ⟨(claim_C2 w_md5 "sys" "pr" "food" (fun _ => w_env_fail)).1
      (fun _ => ⟨"429 quota", rfl⟩),
   (claim_C2 w_md5 "sys" "pr" "food" (fun _ => w_env_ok)).2 1 2 w_llm
      (by omega) (by omega) (fun i hi => absurd hi (by omega)) rfl (Or.inl rfl)⟩

/-- Claim C3, counterexample to the claim as stated: a provider failure is
not classified into ProviderUnavailable / QuotaExceeded / ProviderRejected —
`call_llm` swallows it and hands the null sentinel `None` to its caller. -/
theorem claim_C3_counterexample :
    call_llm (.error "503 Service Unavailable") = none := rfl

/-- Claim C3 (amended): every failure of the provider call is caught at
`call_llm` — no raw error escapes it — but the caller receives the null
sentinel `None` instead of a classified error, and
`generate_post_with_image` then raises the untyped
ValueError "Invalid response structure from LLM"; a successful call is
passed through unchanged. -/
theorem claim_C3 (md5hex : String → String) (e : String)
    (llm : GeneratePostResponseLLM) (ienv : ImageEnv) (brand_niche : String) :
    call_llm (.error e) = none ∧
    call_llm (.ok llm) = some (gemini_to_response llm) ∧
    generate_post_with_image md5hex (.error e) ienv brand_niche =
      .error "Invalid response structure from LLM" :=
  ⟨rfl, rfl, rfl⟩

/-- Claim C4, counterexample to the claim as stated: when the one configured
image provider fails by answering 200 with non-image (HTML) content, the
pipeline still succeeds in one attempt, but imageUrl is the generated-file
reference derived from the prompt hash — not the fixed placeholder
reference. -/
theorem claim_C4_counterexample :
    call_llm_with_retry w_md5 "sys" "pr" (fun _ => x_env_html) "food" 2 =
      .success { text := { caption := "cap", hashtags := ["#a"] },
                 image := { caption := "icap", hashtags := ["#b"],
                            imagePrompt := "a sunset over hills",
                            imageUrl := some "http://localhost:8000/images/image_0123456789.png" },
                 video := { hook := "h", caption := "c", script := "s",
                            shootingInstructions := "si", audienceEngagement := "ae",
                            hashtags := ["#v"] } } 1 ∧
    some "http://localhost:8000/images/image_0123456789.png" ≠
      some "/images/placeholder.png" :=
  ⟨by set_option maxRecDepth 1000000 in decide, by decide⟩

/-- Claim C4 (amended): when the Gemini step succeeds, the Stability attempt
fails as the code detects failure (missing key, non-200 status, timeout or
exception) and the placeholder environment is intact, the first pipeline
attempt already returns success — no pipeline-level retry — with all three
variants populated from the LLM output and imageUrl set to the fixed
placeholder reference. -/
theorem claim_C4 (md5hex : String → String)
    (system_message prompt brand_niche : String) (envs : Nat → AttemptEnv)
    (llm : GeneratePostResponseLLM) (max_retries : Nat)
    (hmr : 1 ≤ max_retries)
    (hg : (envs 0).gemini = .ok llm)
    (hs : stability_attempt_fails (envs 0).image.stability)
    (hp : placeholder_ok (envs 0).image.penv) :
    call_llm_with_retry md5hex system_message prompt envs brand_niche max_retries =
      .success { text := llm.text,
                 image := { caption := llm.image.caption, hashtags := llm.image.hashtags,
                            imagePrompt := llm.image.imagePrompt,
                            imageUrl := some "/images/placeholder.png" },
                 video := llm.video } 1 := by
  obtain ⟨d, hd, hurl⟩ := image_chain_placeholder md5hex (envs 0).image
    (optimize_image_prompt llm.image.imagePrompt brand_niche) hs hp
  have hattempt : generate_post_with_image md5hex (envs 0).gemini (envs 0).image brand_niche
      = .ok { text := llm.text,
              image := { caption := llm.image.caption, hashtags := llm.image.hashtags,
                         imagePrompt := llm.image.imagePrompt,
                         imageUrl := some "/images/placeholder.png" },
              video := llm.video } := by
    rw [hg]
    simp [generate_post_with_image, call_llm, call_gemini, gemini_to_response, hd, hurl]
  have h2 := retryAux_success
    (fun i => generate_post_with_image md5hex (envs i).gemini (envs i).image brand_niche)
    0 0 max_retries none 0 (by omega) (fun i hi => absurd hi (by omega))
    _ (by simpa using hattempt)
  simpa [call_llm_with_retry] using h2

/-- Witness for claim C4: a 500-answering provider with the placeholder file
present. -/
theorem claim_C4_witness :
    call_llm_with_retry w_md5 "sys" "pr" (fun _ => x_env_img_fail) "food" 2 =
      .success { text := { caption := "cap", hashtags := ["#a"] },
                 image := { caption := "icap", hashtags := ["#b"],
                            imagePrompt := "a sunset over hills",
                            imageUrl := some "/images/placeholder.png" },
                 video := { hook := "h", caption := "c", script := "s",
                            shootingInstructions := "si", audienceEngagement := "ae",
                            hashtags := ["#v"] } } 1 :=
  claim_C4 w_md5 "sys" "pr" "food" (fun _ => x_env_img_fail) w_llm 2 (by omega) rfl
    (Or.inr ((by decide : (500 : Nat) ≠ 200))) (Or.inl rfl)

/-- Claim C5, counterexample to the claim as stated: a 200 response whose
content type is "text/html" is treated as a success (the generated-file
reference is returned instead of falling through), and a 201 response
carrying image data is treated as a failure. -/
theorem claim_C5_counterexample :
    generate_image_with_stability w_md5
        { api_key := some "sk-key", outcome := .response 200 "text/html" "PGh0bWw+" }
        x_penv "p" BASE_URL
      = .ok (stability_success_dict w_md5 "p" BASE_URL "PGh0bWw+") ∧
    generate_image_with_stability w_md5
        { api_key := some "sk-key", outcome := .response 201 "image/png" "AAAA" }
        x_penv "p" BASE_URL
      = create_placeholder_response x_penv :=
  ⟨rfl, rfl⟩

/-- Claim C5 (amended): with the key configured and a response received, the
provider invocation is treated as a success if and only if the HTTP status
is exactly 200; the content type is never inspected (the result is
identical for any two content types), so a 200 with non-image content is a
success and a non-200 2xx is not. -/
theorem claim_C5 (md5hex : String → String) (k : String) (status : Nat)
    (ct1 ct2 body : String) (penv : PlaceholderEnv) (prompt base_url : String) :
    (generate_image_with_stability md5hex
        { api_key := some k, outcome := .response status ct1 body } penv prompt base_url
      = generate_image_with_stability md5hex
        { api_key := some k, outcome := .response status ct2 body } penv prompt base_url) ∧
    (status = 200 →
      generate_image_with_stability md5hex
          { api_key := some k, outcome := .response status ct1 body } penv prompt base_url
        = .ok (stability_success_dict md5hex prompt base_url body)) ∧
    (status ≠ 200 →
      generate_image_with_stability md5hex
          { api_key := some k, outcome := .response status ct1 body } penv prompt base_url
        = create_placeholder_response penv) := by
  refine ⟨rfl, fun h => ?_, fun h => ?_⟩
  · simp [generate_image_with_stability, h]
  · simp [generate_image_with_stability, h]

/-- Witness for claim C5: a 200 and a 404 response. -/
theorem claim_C5_witness :
    generate_image_with_stability w_md5
        { api_key := some "sk-key", outcome := .response 200 "image/png" "AAAA" }
        x_penv "p" BASE_URL
      = .ok (stability_success_dict w_md5 "p" BASE_URL "AAAA") ∧
    generate_image_with_stability w_md5
        { api_key := some "sk-key", outcome := .response 404 "image/png" "AAAA" }
        x_penv "p" BASE_URL
      = create_placeholder_response x_penv :=
  ⟨(claim_C5 w_md5 "sk-key" 200 "image/png" "x" "AAAA" x_penv "p" BASE_URL).2.1 rfl,
   (claim_C5 w_md5 "sk-key" 404 "image/png" "x" "AAAA" x_penv "p" BASE_URL).2.2 (by omega)⟩

/-- Claim C6, counterexample to the claim as stated: with the placeholder
file absent and PIL synthesis failing, the terminal placeholder strategy
raises instead of substituting a fixed static URL — it is not failure-proof
for every input state. -/
theorem claim_C6_counterexample :
    create_placeholder_response x_penv_broken =
      .error "placeholder image synthesis failed" := rfl

/-- Claim C6 (amended): whenever the placeholder file exists or PIL synthesis
works, the terminal placeholder strategy returns a dict whose imageUrl is
the fixed placeholder reference; no static-URL substitution exists inside
the strategy for the remaining state. -/
theorem claim_C6 (penv : PlaceholderEnv) (h : placeholder_ok penv) :
    ∃ d, create_placeholder_response penv = .ok d ∧
      d.imageUrl = some "/images/placeholder.png" :=
  placeholder_resp_ok penv h

/-- Witness for claim C6: the placeholder file exists. -/
theorem claim_C6_witness :
    ∃ d, create_placeholder_response x_penv = .ok d ∧
      d.imageUrl = some "/images/placeholder.png" :=
  claim_C6 x_penv (Or.inl rfl)

/-- Claim C7, counterexample to the claim as stated: a caption of 213
characters containing a newline is embedded verbatim in the optimized
prompt — nothing truncates it to 200 characters and nothing strips its
newline. -/
theorem claim_C7_counterexample :
    optimize_image_prompt x_long_caption "food" =
      "Professional photography of food: " ++ x_long_caption ++ image_prompt_suffix ∧
    200 < x_long_caption.length ∧
    '\n' ∈ x_long_caption.data :=
  ⟨by set_option maxRecDepth 1000000 in decide,
   by set_option maxRecDepth 100000 in decide,
   by set_option maxRecDepth 100000 in decide⟩

/-- Claim C7 (amended): for every caption and niche the optimizer returns the
fixed template with the niche and the caption embedded verbatim — no
200-character truncation and no newline stripping of the caption occurs. -/
theorem claim_C7 (caption niche : String) :
    optimize_image_prompt caption niche =
      "Professional photography of " ++ niche ++ ": " ++ caption ++ image_prompt_suffix := by
  unfold optimize_image_prompt pyStrip
  obtain ⟨M, hM⟩ : ∃ M,
      ("Professional photography of " ++ niche ++ ": " ++ caption ++ image_prompt_suffix).data
        = 'P' :: (M ++ ['.']) := by
    refine ⟨"rofessional photography of ".data ++
      (niche.data ++ (": ".data ++ (caption.data ++ image_prompt_suffix_init.data))), ?_⟩
    set_option maxRecDepth 1000000 in
      simp [str_data_append, image_prompt_suffix, image_prompt_suffix_init, List.append_assoc]
  rw [hM, pyStripL_cons_concat 'P' '.' M (by decide) (by decide), ← hM]

/-- Claim C8, counterexample to the claim as stated: with the strict parse
failing and the repairer yielding a non-empty array — an invalid, non-object
result for the three-key schema — `validate_and_fix_json` returns it
silently instead of failing. -/
theorem claim_C8_counterexample :
    validate_and_fix_json (.error "Expecting value: line 1 column 2")
        (.ok (.arr [.str "a"])) "[a" = .ok (.arr [.str "a"]) ∧
    (JsonValue.arr [.str "a"]).isObj = false :=
  ⟨rfl, rfl⟩

/-- Claim C8 (amended): when the strict parse fails, a repair exception or a
falsy (empty) repair result raises a ValueError carrying the repair-stage
message — the original strict-parse error is discarded and the raw-payload
snippet only logged — while any truthy repair result, object or not, is
returned as-is; a strict-parse success is returned unchanged. -/
theorem claim_C8 (orig repair_err raw : String) (repaired : Except String JsonValue)
    (v : JsonValue) :
    (validate_and_fix_json (.ok v) repaired raw = .ok v) ∧
    (validate_and_fix_json (.error orig) (.error repair_err) raw =
      .error ("Could not parse JSON even after repair: " ++ repair_err)) ∧
    (jsonTruthy v = true →
      validate_and_fix_json (.error orig) (.ok v) raw = .ok v) ∧
    (jsonTruthy v = false →
      validate_and_fix_json (.error orig) (.ok v) raw =
        .error "Could not parse JSON even after repair: json_repair returned empty object") := by
  refine ⟨rfl, rfl, fun h => by simp [validate_and_fix_json, h],
          fun h => by simp [validate_and_fix_json, h]⟩

/-- Witness for claim C8: a truthy object repair result is returned, an empty
object raises. -/
theorem claim_C8_witness :
    validate_and_fix_json (.error "Expecting value") (.ok (.obj [("text", .str "x")])) "raw"
      = .ok (.obj [("text", .str "x")]) ∧
    validate_and_fix_json (.error "Expecting value") (.ok (.obj [])) "raw"
      = .error "Could not parse JSON even after repair: json_repair returned empty object" :=
  ⟨(claim_C8 "Expecting value" "" "raw" (.error "") (.obj [("text", .str "x")])).2.2.1 rfl,
   (claim_C8 "Expecting value" "" "raw" (.error "") (.obj [])).2.2.2 rfl⟩

/-- Claim C9 (confirmed): the few-shot block has at most 5 entries, entry i
is built from past post i (input order preserved), and each entry's content
is the cleaned 150-character truncation of the post's content — at most 150
characters and newline-free. -/
theorem claim_C9 (past_posts : List PastPost) :
    (past_examples_list past_posts).length ≤ 5 ∧
    (∀ i (h1 : i < (past_examples_list past_posts).length) (h2 : i < past_posts.length),
      (past_examples_list past_posts).get ⟨i, h1⟩ =
        past_post_entry (i + 1) (past_posts.get ⟨i, h2⟩)) ∧
    (∀ post ∈ past_posts.take 5,
      (past_post_content post).length ≤ 150 ∧ '\n' ∉ (past_post_content post).data) := by
  refine ⟨?_, ?_, ?_⟩
  · calc (past_examples_list past_posts).length
        = (past_posts.take 5).length := List.length_mapIdx
      _ ≤ 5 := List.length_take_le _ _
  · intro i h1 h2
    simp [past_examples_list, List.getElem_mapIdx, List.getElem_take]
  · intro post _
    exact ⟨past_post_content_length_le post, clean_str_no_newline _⟩

/-- Witness for claim C9: seven posts with 205-character newline-carrying
contents. -/
theorem claim_C9_witness :
    (past_examples_list w_posts).length ≤ 5 ∧
    (past_examples_list w_posts).get ⟨0, by decide⟩ =
      past_post_entry 1 (w_posts.get ⟨0, by decide⟩) ∧
    (past_post_content w_post).length ≤ 150 ∧
    '\n' ∉ (past_post_content w_post).data :=
  ⟨(claim_C9 w_posts).1,
   (claim_C9 w_posts).2.1 0 (by decide) (by decide),
   ((claim_C9 (w_post :: w_posts)).2.2 w_post (by simp)).1,
   ((claim_C9 (w_post :: w_posts)).2.2 w_post (by simp)).2⟩

/-- Claim C10 (confirmed): the system message is one fixed constant string,
identical for every pair of brand profiles. -/
theorem claim_C10 (b1 b2 : BrandProfile) :
    build_system_message b1 = build_system_message b2 ∧
    build_system_message b1 =
      "You are an expert social media creator. You strictly output JSON data matching the provided schema." :=
  ⟨rfl, rfl⟩
